import Mathlib

/-!
Verification of the time-format detection and row-normalization pipeline of
the easy-time-series-dashboard repository (src/js/dashboard.js).

The development shallowly embeds the JavaScript code: JS strings are Lean
`String`s, JS numbers that can only be NaN / ±Infinity / an exactly
representable value are modelled by the inductive `JSNum` over `Rat`
(every numeric value handled by the pipeline on the inputs considered is
exactly representable in a double, so `Rat` arithmetic is faithful),
`parseInt` / `parseFloat` follow the ECMAScript grammars, and thrown
exceptions that the code catches are modelled by `Option` / `Except`.
-/

/-- Model of a JavaScript number as produced by `parseInt`/`parseFloat`:
either NaN, a signed infinity, or an exact (rational) value. -/
inductive JSNum where
  | nan : JSNum
  | inf (neg : Bool) : JSNum
  | num (v : Rat) : JSNum
  deriving DecidableEq

/-- Model of `String.prototype.trim`: strip leading and trailing
whitespace. -/
def trimJS (s : String) : String :=
  String.mk (((s.data.dropWhile Char.isWhitespace).reverse.dropWhile Char.isWhitespace).reverse)

/-- Model of `String.prototype.split` with a one-character separator:
split at every occurrence of `sep`; the empty string yields `[""]`. -/
def splitOnCharAux (sep : Char) : List Char → List Char → List String
  | [], acc => [String.mk acc.reverse]
  | c :: rest, acc =>
      if c = sep then String.mk acc.reverse :: splitOnCharAux sep rest []
      else splitOnCharAux sep rest (c :: acc)

def splitOnChar (sep : Char) (s : String) : List String :=
  splitOnCharAux sep s.data []

/-- Model of `String.prototype.substr(start, len)` for non-negative
arguments. -/
def substrJS (s : String) (start len : Nat) : String :=
  String.mk ((s.data.drop start).take len)

/-- Decimal digits to their value. -/
def digitsToNat (ds : List Char) : Nat :=
  ds.foldl (fun acc c => acc * 10 + (c.toNat - '0'.toNat)) 0

def isHexDigitChar (c : Char) : Bool :=
  c.isDigit || ('a' ≤ c && c ≤ 'f') || ('A' ≤ c && c ≤ 'F')

def hexVal (c : Char) : Nat :=
  if c.isDigit then c.toNat - '0'.toNat
  else if 'a' ≤ c && c ≤ 'f' then c.toNat - 'a'.toNat + 10
  else c.toNat - 'A'.toNat + 10

def hexDigitsToNat (ds : List Char) : Nat :=
  ds.foldl (fun acc c => acc * 16 + hexVal c) 0

/-- Consume an optional leading sign; returns (negative?, rest). -/
def jsSign : List Char → Bool × List Char
  | '-' :: rest => (true, rest)
  | '+' :: rest => (false, rest)
  | rest => (false, rest)

def intOfSign (neg : Bool) (n : Nat) : Int :=
  if neg then -(n : Int) else (n : Int)

/-- Model of ECMAScript `parseInt(string)` with no radix argument:
skip whitespace, optional sign, an optional `0x`/`0X` hex marker, then the
longest run of digits in the selected base; NaN (here `none`) when that
run is empty. -/
def parseIntJS (s : String) : Option Int :=
  let cs := s.data.dropWhile Char.isWhitespace
  let sr := jsSign cs
  let body := sr.2
  let isHex : Bool :=
    match body with
    | '0' :: 'x' :: _ => true
    | '0' :: 'X' :: _ => true
    | _ => false
  if isHex then
    let ds := (body.drop 2).takeWhile isHexDigitChar
    if ds.isEmpty then none else some (intOfSign sr.1 (hexDigitsToNat ds))
  else
    let ds := body.takeWhile Char.isDigit
    if ds.isEmpty then none else some (intOfSign sr.1 (digitsToNat ds))

/-- Model of ECMAScript `parseFloat(string)`: skip whitespace, optional
sign, then the longest prefix that is either the literal `Infinity` or
`digits [. digits] [exponent]` with at least one mantissa digit; the
exponent is used only when it has at least one digit (otherwise the valid
prefix ends before the `e`). NaN when no prefix parses. The exact decimal
value `± mantissaDigits * 10 ^ (exponent - fractionLength)` is built with
one `mkRat` so that it evaluates by reduction. -/
def parseFloatJS (s : String) : JSNum :=
  let cs := s.data.dropWhile Char.isWhitespace
  let sr := jsSign cs
  let body := sr.2
  if "Infinity".data.isPrefixOf body then JSNum.inf sr.1
  else
    let ip := body.span Char.isDigit
    let intDs := ip.1
    let fp :=
      match ip.2 with
      | '.' :: rest => (rest.span Char.isDigit).1
      | _ => []
    let afterFrac :=
      match ip.2 with
      | '.' :: rest => (rest.span Char.isDigit).2
      | other => other
    if intDs.isEmpty && fp.isEmpty then JSNum.nan
    else
      let e : Int :=
        match afterFrac with
        | c :: rest =>
            if c = 'e' ∨ c = 'E' then
              let es := jsSign rest
              let eds := es.2.takeWhile Char.isDigit
              if eds.isEmpty then 0 else intOfSign es.1 (digitsToNat eds)
            else 0
        | [] => 0
      let mant : Nat := digitsToNat (intDs ++ fp)
      let scale : Int := e - (fp.length : Int)
      let v : Rat :=
        if 0 ≤ scale then mkRat (intOfSign sr.1 (mant * 10 ^ scale.toNat)) 1
        else mkRat (intOfSign sr.1 mant) (10 ^ (-scale).toNat)
      JSNum.num v

/-- The four time encodings of `detectTimeFormat`
(src/js/dashboard.js:161-190). -/
inductive TimeFormat where
  | integer : TimeFormat
  | datetime_string : TimeFormat
  | epoch_milliseconds : TimeFormat
  | epoch_seconds : TimeFormat
  deriving DecidableEq

/-- The regex `^[01]\d*$` of detection rule 1: nonempty, first character
`0` or `1`, all characters decimal digits. -/
def matchesIntegerRule (s : String) : Bool :=
  match s.data with
  | [] => false
  | c :: rest => (c = '0' || c = '1') && rest.all Char.isDigit

/-- All characters are decimal digits (the `^\d{n}$` regexes combine this
with a length constraint). -/
def allDigits (s : String) : Bool :=
  s.data.all Char.isDigit

/-- The rule cascade of `detectTimeFormat` applied to the already trimmed
token (src/js/dashboard.js:164-189):
1. `^[01]\d*$` and length ≤ 10      → integer
2. `^\d{14}$`                        → datetime_string
3. `^\d{13,}$`                       → epoch_milliseconds
4. `^\d{10,12}$`                     → epoch_seconds
5. `!isNaN(parseFloat(...))`         → integer
6. otherwise the code throws `Unrecognized time format` (modelled `none`).
-/
def detectCore (t : String) : Option TimeFormat :=
  if matchesIntegerRule t ∧ t.data.length ≤ 10 then some TimeFormat.integer
  else if allDigits t ∧ t.data.length = 14 then some TimeFormat.datetime_string
  else if allDigits t ∧ 13 ≤ t.data.length then some TimeFormat.epoch_milliseconds
  else if allDigits t ∧ 10 ≤ t.data.length ∧ t.data.length ≤ 12 then some TimeFormat.epoch_seconds
  else if parseFloatJS t ≠ JSNum.nan then some TimeFormat.integer
  else none

/-- Mirrors `detectTimeFormat(timeValue)` (src/js/dashboard.js:161-190): trim the
token, then run the rule cascade; `none` models the thrown
`Unrecognized time format` error. -/
def detectTimeFormat (timeValue : String) : Option TimeFormat :=
  detectCore (trimJS timeValue)

/-- A JavaScript `Date`: either an Invalid Date (some constructor argument
was NaN) or a calendar value described by its local-time components. The
constructed millisecond value depends on the host time zone and is kept
abstract (theorems quantify over a `getTime` interpretation). -/
inductive JSDate where
  | invalid : JSDate
  | valid (year monthIndex day hour minute second : Int) : JSDate
  deriving DecidableEq

/-- Model of `new Date(year, monthIndex, day, hours, minutes, seconds)`
with local-time semantics:
* any NaN argument yields an Invalid Date;
* a year argument in 0..99 is interpreted as 1900 + year;
* the 0-indexed month argument rolls over into the year
  (`monthIndex mod 12`, year carry `⌊monthIndex / 12⌋`).
Rollover of an out-of-range day/hour/minute/second into the larger fields
is not modelled; the stored components are exact whenever those fields are
within calendar range, which holds for every token this development
evaluates. -/
def newDateLocal : Option Int → Option Int → Option Int → Option Int → Option Int → Option Int → JSDate
  | some y, some mo, some d, some h, some mi, some s =>
      let y0 : Int := if 0 ≤ y ∧ y ≤ 99 then y + 1900 else y
      JSDate.valid (y0 + mo.fdiv 12) (mo.emod 12) d h mi s
  | _, _, _, _, _, _ => JSDate.invalid

/-- Model of `Date.prototype.getFullYear`; NaN (`none`) on an Invalid Date. -/
def jsGetFullYear : JSDate → Option Int
  | JSDate.invalid => none
  | JSDate.valid y _ _ _ _ _ => some y

/-- Model of `Date.prototype.getMonth`: the 0-indexed month; NaN on Invalid Date. -/
def jsGetMonth : JSDate → Option Int
  | JSDate.invalid => none
  | JSDate.valid _ mo _ _ _ _ => some mo

def jsGetDate : JSDate → Option Int
  | JSDate.invalid => none
  | JSDate.valid _ _ d _ _ _ => some d

def jsGetHours : JSDate → Option Int
  | JSDate.invalid => none
  | JSDate.valid _ _ _ h _ _ => some h

def jsGetMinutes : JSDate → Option Int
  | JSDate.invalid => none
  | JSDate.valid _ _ _ _ mi _ => some mi

def jsGetSeconds : JSDate → Option Int
  | JSDate.invalid => none
  | JSDate.valid _ _ _ _ _ s => some s

/-- The human (1-indexed) calendar month of a constructed date:
`getMonth() + 1`. -/
def jsDateCalendarMonth (d : JSDate) : Option Int :=
  (jsGetMonth d).map (fun mo => mo + 1)

/-- Model of `Number.prototype.toString` through a possibly-NaN integer: NaN prints
as `"NaN"`. -/
def jsIntToString : Option Int → String
  | none => "NaN"
  | some n => toString n

/-- Model of `String.prototype.padStart(n, c)`. -/
def padStart (s : String) (n : Nat) (c : Char) : String :=
  if n ≤ s.data.length then s
  else String.mk (List.replicate (n - s.data.length) c) ++ s

/-- Mirrors `formatDateTime(date, withMillis)` (src/js/dashboard.js:273-291).
Note the source formats `date.getMonth()` directly — the 0-indexed month,
without the `+ 1` a calendar rendering would need; the embedding keeps
that behavior. The milliseconds component of a 6-argument constructor
call is 0. -/
def formatDateTime (date : JSDate) (withMillis : Bool) : String :=
  let year := jsIntToString (jsGetFullYear date)
  let month := padStart (jsIntToString (jsGetMonth date)) 2 '0'
  let day := padStart (jsIntToString (jsGetDate date)) 2 '0'
  let hours := padStart (jsIntToString (jsGetHours date)) 2 '0'
  let minutes := padStart (jsIntToString (jsGetMinutes date)) 2 '0'
  let seconds := padStart (jsIntToString (jsGetSeconds date)) 2 '0'
  let dateTime := year ++ "-" ++ month ++ "-" ++ day ++ " " ++ hours ++ ":" ++ minutes ++ ":" ++ seconds
  if withMillis then dateTime ++ ".000" else dateTime

/-- Mirrors `parseDateTimeString(dateTimeStr)` (src/js/dashboard.js:244-258):
a token that is not exactly 14 characters throws (modelled `none`, the
caller catches it); otherwise the six fixed-width fields are parsed with
`parseInt` and passed to the `Date` constructor — the raw month field is
used directly as the constructor's 0-indexed month argument. -/
def parseDateTimeString (dateTimeStr : String) : Option JSDate :=
  if dateTimeStr.data.length ≠ 14 then none
  else
    some (newDateLocal
      (parseIntJS (substrJS dateTimeStr 0 4))
      (parseIntJS (substrJS dateTimeStr 4 2))
      (parseIntJS (substrJS dateTimeStr 6 2))
      (parseIntJS (substrJS dateTimeStr 8 2))
      (parseIntJS (substrJS dateTimeStr 10 2))
      (parseIntJS (substrJS dateTimeStr 12 2)))

/-- The record built per accepted row (`numeric`, `display`, `raw`); the
`date` object the source also stores is consumed only through `numeric`
and `display` and is not carried separately. -/
structure TimePoint where
  numeric : JSNum
  display : String
  raw : String
  deriving DecidableEq

/-- The result of `parseInt` as a JS number: NaN or the integer. -/
def jsNumOfParseInt : Option Int → JSNum
  | none => JSNum.nan
  | some n => JSNum.num (n : Rat)

/-- Mirrors `processTimeValue(rawValue, format)` (src/js/dashboard.js:192-241),
parameterized by `getTime`, the host-time-zone-dependent conversion of a
constructed `Date` to its millisecond value. `none` models the
try/catch returning null.

* `integer`: `parseInt` the token; NaN propagates into the returned
  record (`numeric` NaN, `display` `"NaN"`), the row is NOT rejected.
* `epoch_seconds`: the source evaluates `dateFromSeconds.time()`, but
  `Date` has no method `time` (the code means `getTime`); the TypeError
  is caught and null is returned for every token.
* `epoch_milliseconds`: the source evaluates
  `this.formatDateTimeWithMs(dateFromMs)`, whose body calls the bare
  identifier `formatDateTime` (not `this.formatDateTime`), a
  ReferenceError; it is caught and null is returned for every token.
* `datetime_string`: parse via `parseDateTimeString` (its length-14 throw
  is caught as null), then build the record from the constructed date. -/
def processTimeValue (getTime : JSDate → JSNum) (rawValue : String) (format : TimeFormat) : Option TimePoint :=
  match format with
  | TimeFormat.integer =>
      some (TimePoint.mk (jsNumOfParseInt (parseIntJS (trimJS rawValue)))
        (jsIntToString (parseIntJS (trimJS rawValue))) rawValue)
  | TimeFormat.epoch_seconds => none
  | TimeFormat.epoch_milliseconds => none
  | TimeFormat.datetime_string =>
      match parseDateTimeString (trimJS rawValue) with
      | none => none
      | some d => some (TimePoint.mk (getTime d) (formatDateTime d false) rawValue)

/-- A fixed interpretation of `getTime` used to instantiate universally
quantified theorems in witnesses; the theorems hold for every
interpretation. -/
def getTimeStub : JSDate → JSNum := fun _ => JSNum.num 0

example : parseDateTimeString "20251018134550" = some (JSDate.valid 2025 10 18 13 45 50) := by decide
example : jsDateCalendarMonth (JSDate.valid 2025 10 18 13 45 50) = some 11 := by decide
example : processTimeValue getTimeStub "1760784150" TimeFormat.epoch_seconds = none := rfl
example : processTimeValue getTimeStub "abc" TimeFormat.integer
    = some (TimePoint.mk JSNum.nan "NaN" "abc") := by decide
example : processTimeValue getTimeStub "7" TimeFormat.integer
    = some (TimePoint.mk (JSNum.num 7) "7" "7") := by decide

/-- The mutable state threaded through the data-row loop of `parseCSV`
(src/js/dashboard.js:103-144): the `timePoints` array of numeric values,
the `processedTimePoints` array of records, and the `sampleData` object.
The object is modelled as a total map from sample name to its array; keys
never written stay at the initial empty array. A sample cell is
`Option JSNum`: `none` is the `null` pushed for an unparsable cell. -/
structure RowState where
  timePoints : List JSNum
  processedTimePoints : List TimePoint
  sampleData : String → List (Option JSNum)

def initRowState : RowState := RowState.mk [] [] (fun _ => [])

/-- Point update of the sample-data object. -/
def updateMap (m : String → List (Option JSNum)) (k : String) (v : List (Option JSNum)) :
    String → List (Option JSNum) :=
  fun q => if q = k then v else m q

/-- The slot pushed for one sample cell (src/js/dashboard.js:135-142):
`parseFloat` the cell; `null` if the result is NaN, else the value. -/
def slotOf (cell : String) : Option JSNum :=
  if parseFloatJS cell = JSNum.nan then none else some (parseFloatJS cell)

/-- The inner loop `for (j = 1; j < values.length; j++)` of an accepted
row: walk the sample names (`sampleNames[j-1]`) against the remaining
fields (`values[j]`), pushing one slot onto the named series at each
step. When the same name occurs twice the second push lands on the array
the first push just extended, exactly as in the source. -/
def pushSamples : (String → List (Option JSNum)) → List String → List String → (String → List (Option JSNum))
  | m, name :: names, cell :: cells =>
      pushSamples (updateMap m name (m name ++ [slotOf cell])) names cells
  | m, _, _ => m

/-- Mirrors `lines[i].split(',').map(val => val.trim())`. -/
def rowFields (line : String) : List String :=
  (splitOnChar ',' line).map trimJS

/-- One iteration of the data-row loop (src/js/dashboard.js:113-144):
skip the row when its field count differs from the header's; skip it when
`processTimeValue` returned null; otherwise push the time point and one
slot per sample column. -/
def processRow (getTime : JSDate → JSNum) (headerLen : Nat) (sampleNames : List String)
    (timeFormat : TimeFormat) (st : RowState) (line : String) : RowState :=
  if (rowFields line).length ≠ headerLen then st
  else
    match processTimeValue getTime ((rowFields line).headD "") timeFormat with
    | none => st
    | some pt =>
        RowState.mk (st.timePoints ++ [pt.numeric]) (st.processedTimePoints ++ [pt])
          (pushSamples st.sampleData sampleNames ((rowFields line).drop 1))

/-- Mirrors `csvText.trim().split('\n')`. -/
def linesOf (csvText : String) : List String :=
  splitOnChar '\n' (trimJS csvText)

/-- Mirrors `lines[0].split(',').map(col => col.trim())`. -/
def headerOf (csvText : String) : List String :=
  (splitOnChar ',' ((linesOf csvText).headD "")).map trimJS

/-- The first data row's time token, `firstDataRow[0]`
(src/js/dashboard.js:99-100). -/
def firstTokenOf (csvText : String) : String :=
  ((splitOnChar ',' (((linesOf csvText).drop 1).headD "")).map trimJS).headD ""

/-- The state after folding the data-row loop over `lines[1..]`. -/
def finalStateOf (getTime : JSDate → JSNum) (csvText : String) (timeFormat : TimeFormat) : RowState :=
  ((linesOf csvText).drop 1).foldl
    (processRow getTime (headerOf csvText).length ((headerOf csvText).drop 1) timeFormat)
    initRowState

/-- The dataset returned by a successful `parseCSV`
(src/js/dashboard.js:151-158). -/
structure ParsedData where
  timeColumnName : String
  samples : List String
  timePoints : List JSNum
  processedTimePoints : List TimePoint
  sampleData : String → List (Option JSNum)
  timeFormat : TimeFormat

/-- The fatal errors `parseCSV` can throw (all abort the whole parse):
fewer than 2 lines, a header with no sample columns, an unrecognized time
format from detection, and no surviving data row. -/
inductive ParseError where
  | tooFewRows : ParseError
  | noSampleColumns : ParseError
  | unrecognizedFormat : ParseError
  | noValidRows : ParseError
  deriving DecidableEq

/-- Mirrors `parseCSV(csvText)` (src/js/dashboard.js:82-159): split into lines,
check the minimum line count, read the header, check for sample columns,
detect the time format from the first data row's token, fold the row
loop, fail if no row survived, else return the dataset. -/
def parseCSV (getTime : JSDate → JSNum) (csvText : String) : Except ParseError ParsedData :=
  if (linesOf csvText).length < 2 then Except.error ParseError.tooFewRows
  else if ((headerOf csvText).drop 1).length = 0 then Except.error ParseError.noSampleColumns
  else
    match detectTimeFormat (firstTokenOf csvText) with
    | none => Except.error ParseError.unrecognizedFormat
    | some timeFormat =>
        if (finalStateOf getTime csvText timeFormat).timePoints.length = 0 then
          Except.error ParseError.noValidRows
        else
          Except.ok (ParsedData.mk ((headerOf csvText).headD "")
            ((headerOf csvText).drop 1)
            (finalStateOf getTime csvText timeFormat).timePoints
            (finalStateOf getTime csvText timeFormat).processedTimePoints
            (finalStateOf getTime csvText timeFormat).sampleData
            timeFormat)

/-- Placeholder dataset used to name the result of a concrete successful
parse in witnesses. -/
def emptyParsedData : ParsedData :=
  ParsedData.mk "" [] [] [] (fun _ => []) TimeFormat.integer

/-- The dataset of a concrete parse, for witnesses: the `ok` payload, or
the placeholder on error. -/
def okDataOf (e : Except ParseError ParsedData) : ParsedData :=
  match e with
  | Except.ok pd => pd
  | Except.error _ => emptyParsedData

example :
    (parseCSV getTimeStub "t,s\n5,1\nabc,2").toOption.map (fun pd => pd.timePoints)
      = some [JSNum.num 5, JSNum.nan] := by decide
example :
    (parseCSV getTimeStub "t,a,a\n1,2,3\n2,4,5").toOption.map (fun pd => (pd.sampleData "a").length)
      = some 4 := by decide
example :
    (parseCSV getTimeStub "t,a,b\n1,2,xyz\n2,4,5").toOption.map (fun pd => pd.sampleData "b")
      = some [none, some (JSNum.num 5)] := by decide

/-- The disjunction of the four digit-pattern detection rules
(rules 1-4 of `detectCore`), on the already trimmed token. -/
abbrev digitRuleMatches (t : String) : Prop :=
  (matchesIntegerRule t ∧ t.data.length ≤ 10) ∨
  (allDigits t ∧ t.data.length = 14) ∨
  (allDigits t ∧ 13 ≤ t.data.length) ∨
  (allDigits t ∧ 10 ≤ t.data.length ∧ t.data.length ≤ 12)

/-- C1: evaluation of format detection at the claim's tokens. The tokens
`"1760784150234"`, `"0"` and `"1"` classify as the claim states, but
`"1760784150"` (10 digits, leading `1`) is captured by detection rule 1
(`^[01]\d*$` with length ≤ 10) and classifies as Integer, not
EpochSeconds — contradicting both the claim and the repository README's
own epoch-seconds example. -/
theorem C1_detect_eval :
    detectTimeFormat "1760784150" = some TimeFormat.integer ∧
    detectTimeFormat "1760784150" ≠ some TimeFormat.epoch_seconds ∧
    detectTimeFormat "1760784150234" = some TimeFormat.epoch_milliseconds ∧
    detectTimeFormat "0" = some TimeFormat.integer ∧
    detectTimeFormat "1" = some TimeFormat.integer := by decide

/-- C2: under the EpochSeconds format every token — in particular the
claim's `1760784150` — converts to null and its row is rejected, because
the source evaluates `dateFromSeconds.time()` and `Date` has no method
`time`; the TypeError is caught and null returned. The claimed
`numeric = 1760784150000` is never produced. -/
theorem C2_epoch_seconds_rows_rejected (getTime : JSDate → JSNum) (raw : String) :
    processTimeValue getTime raw TimeFormat.epoch_seconds = none := rfl

theorem C2_witness :
    processTimeValue getTimeStub "1760784150" TimeFormat.epoch_seconds = none :=
  C2_epoch_seconds_rows_rejected getTimeStub "1760784150"

/-- C3: under the EpochMilliseconds format every all-digit token — in
particular `1760784150234` — converts to null and its row is rejected,
because the source's `formatDateTimeWithMs` invokes the bare identifier
`formatDateTime` (a ReferenceError at run time, not `this.formatDateTime`);
the error is caught and null returned, so no TimePoint with the claimed
numeric and display is ever produced. -/
theorem C3_epoch_ms_rows_rejected (getTime : JSDate → JSNum) (raw : String) :
    processTimeValue getTime raw TimeFormat.epoch_milliseconds = none := rfl

theorem C3_witness :
    processTimeValue getTimeStub "1760784150234" TimeFormat.epoch_milliseconds = none :=
  C3_epoch_ms_rows_rejected getTimeStub "1760784150234"

/-- C4: converting the 14-digit token `"20251018134550"` parses the month
field as 10 and passes it directly to the `Date` constructor, whose month
argument is 0-indexed: the constructed local timestamp has `getMonth()`
= 10, i.e. human calendar month November (11), not October (10) as the
claim requires. -/
theorem C4_month_shifted :
    parseDateTimeString "20251018134550" = some (JSDate.valid 2025 10 18 13 45 50) ∧
    jsDateCalendarMonth (JSDate.valid 2025 10 18 13 45 50) = some 11 ∧
    jsDateCalendarMonth (JSDate.valid 2025 10 18 13 45 50) ≠ some 10 := by decide

/-- C6: any token that trims to exactly 14 decimal digits — in particular
`"20251018134550"` — classifies as DateTimeString and never as
EpochMilliseconds: the 14-digit rule precedes the ≥13-digit rule. -/
theorem C6_fourteen_digits_detect (t : String)
    (hd : allDigits (trimJS t) = true) (hl : (trimJS t).data.length = 14) :
    detectTimeFormat t = some TimeFormat.datetime_string ∧
    detectTimeFormat t ≠ some TimeFormat.epoch_milliseconds := by
  have h1 : ¬(matchesIntegerRule (trimJS t) ∧ (trimJS t).data.length ≤ 10) := by
    rintro ⟨-, hle⟩
    omega
  have hdet : detectTimeFormat t = some TimeFormat.datetime_string := by
    unfold detectTimeFormat detectCore
    rw [if_neg h1, if_pos ⟨hd, hl⟩]
  refine ⟨hdet, ?_⟩
  rw [hdet]
  intro hc
  exact TimeFormat.noConfusion (Option.some.inj hc)

theorem C6_witness :
    (allDigits (trimJS "20251018134550") = true ∧ (trimJS "20251018134550").data.length = 14) ∧
    (detectTimeFormat "20251018134550" = some TimeFormat.datetime_string ∧
      detectTimeFormat "20251018134550" ≠ some TimeFormat.epoch_milliseconds) :=
  ⟨⟨by decide, by decide⟩, C6_fourteen_digits_detect "20251018134550" (by decide) (by decide)⟩

/-- Rule 5 and the failure case of the cascade, over the trimmed token:
detection fails precisely when no digit rule matches and `parseFloat`
yields NaN; with no digit rule but a non-NaN `parseFloat` result
(finite or ±Infinity) it yields Integer. -/
theorem detectCore_failure_iff (t : String) :
    (detectCore t = none ↔ ¬ digitRuleMatches t ∧ parseFloatJS t = JSNum.nan) ∧
    (¬ digitRuleMatches t → parseFloatJS t ≠ JSNum.nan → detectCore t = some TimeFormat.integer) := by
  unfold detectCore digitRuleMatches
  split_ifs with g1 g2 g3 g4 g5 <;> simp_all

/-- C8 (amended): `detect` fails exactly when the token matches none of
the four digit-pattern rules AND `parseFloat` of the token is NaN; a
token matching no digit rule whose `parseFloat` result is non-NaN —
finite or ±Infinity — classifies as Integer. (The claim's "finite"
qualification fails: see the counterexample `"Infinity"`.) -/
theorem C8_detect_failure_iff (tok : String) :
    (detectTimeFormat tok = none ↔
      ¬ digitRuleMatches (trimJS tok) ∧ parseFloatJS (trimJS tok) = JSNum.nan) ∧
    (¬ digitRuleMatches (trimJS tok) → parseFloatJS (trimJS tok) ≠ JSNum.nan →
      detectTimeFormat tok = some TimeFormat.integer) := by
  unfold detectTimeFormat
  exact detectCore_failure_iff (trimJS tok)

/-- C8 counterexample: `"Infinity"` matches no digit rule and does not
parse as a finite number (`parseFloat` gives +Infinity), so by the claim
detection should fail with UnrecognizedFormatError — but the code's
fallback test is `!isNaN(parseFloat(...))`, which Infinity passes, and
the token classifies as Integer. -/
theorem C8_counterexample :
    ¬ digitRuleMatches (trimJS "Infinity") ∧
    parseFloatJS (trimJS "Infinity") = JSNum.inf false ∧
    detectTimeFormat "Infinity" = some TimeFormat.integer := by decide

theorem C8_witness :
    (¬ digitRuleMatches (trimJS "-5.5") ∧ parseFloatJS (trimJS "-5.5") ≠ JSNum.nan) ∧
    detectTimeFormat "-5.5" = some TimeFormat.integer :=
  ⟨⟨by decide, by decide⟩, (C8_detect_failure_iff "-5.5").2 (by decide) (by decide)⟩

/-- C5 counterexample: under the Integer format a non-numeric time token
does NOT fail conversion — `parseInt("abc")` is NaN, the returned record
is non-null and the row is kept with a NaN time point. The file
`t,s` / `5,1` / `abc,2` ends with two time points, the second NaN,
where the claim requires the `abc` row to contribute none. -/
theorem C5_counterexample :
    processTimeValue getTimeStub "abc" TimeFormat.integer
      = some (TimePoint.mk JSNum.nan "NaN" "abc") ∧
    (parseCSV getTimeStub "t,s\n5,1\nabc,2").toOption.map (fun pd => pd.timePoints)
      = some [JSNum.num 5, JSNum.nan] := by decide

/-- C5 (amended): a data row whose time token fails conversion — the
code's `processTimeValue` returns null, as happens for every
DateTimeString token of wrong length and for every token under the two
epoch formats — is skipped: it contributes no time point and no sample
slots, and the row loop continues over the remaining rows unchanged.
(Under the Integer format a non-numeric token does not fail conversion;
see the counterexample.) -/
theorem C5_failed_time_row_skipped (getTime : JSDate → JSNum) (headerLen : Nat)
    (sampleNames : List String) (fmt : TimeFormat) (st : RowState)
    (line : String) (rest : List String)
    (h : processTimeValue getTime ((rowFields line).headD "") fmt = none) :
    (line :: rest).foldl (processRow getTime headerLen sampleNames fmt) st
      = rest.foldl (processRow getTime headerLen sampleNames fmt) st := by
  have hrow : processRow getTime headerLen sampleNames fmt st line = st := by
    unfold processRow
    split
    · rfl
    · rw [h]
  rw [List.foldl_cons, hrow]

theorem C5_witness :
    processTimeValue getTimeStub ((rowFields "abc,1").headD "") TimeFormat.datetime_string = none ∧
    ["abc,1", "20251018134550,2"].foldl
        (processRow getTimeStub 2 ["s"] TimeFormat.datetime_string) initRowState
      = ["20251018134550,2"].foldl
        (processRow getTimeStub 2 ["s"] TimeFormat.datetime_string) initRowState :=
  ⟨by decide, C5_failed_time_row_skipped getTimeStub 2 ["s"] TimeFormat.datetime_string
    initRowState "abc,1" ["20251018134550,2"] (by decide)⟩

/-- A name the inner sample loop never touches keeps its series. -/
theorem pushSamples_apply_of_not_mem (names : List String) :
    ∀ (cells : List String) (m : String → List (Option JSNum)) (s : String),
      s ∉ names → pushSamples m names cells s = m s := by
  induction names with
  | nil =>
      intro cells m s _
      cases cells <;> rfl
  | cons n ns ih =>
      intro cells m s hs
      cases cells with
      | nil => rfl
      | cons c cs =>
          have hsn : s ≠ n := fun he => hs (he ▸ List.mem_cons_self n ns)
          have hsns : s ∉ ns := fun hm => hs (List.mem_cons_of_mem _ hm)
          simp only [pushSamples]
          rw [ih cs _ s hsns]
          unfold updateMap
          simp [hsn]

/-- Each step of the inner sample loop appends exactly one slot to the
series of the name it visits: over the whole row, a name's series grows
by the number of columns carrying that name. -/
theorem pushSamples_length_count (names : List String) :
    ∀ (cells : List String) (m : String → List (Option JSNum)) (s : String),
      cells.length = names.length →
      (pushSamples m names cells s).length = (m s).length + names.count s := by
  induction names with
  | nil =>
      intro cells m s hlen
      cases cells with
      | nil => simp [pushSamples]
      | cons c cs => simp at hlen
  | cons n ns ih =>
      intro cells m s hlen
      cases cells with
      | nil => simp at hlen
      | cons c cs =>
          simp only [pushSamples]
          rw [ih cs _ s (by simpa using hlen)]
          unfold updateMap
          by_cases hsn : s = n
          · subst hsn
            simp [List.count_cons]
            omega
          · simp [hsn, List.count_cons]

/-- Invariant of the data-row loop: each sample name's series length stays
`(number of columns carrying the name) * (number of accepted rows)`. -/
theorem foldRows_length_count (getTime : JSDate → JSNum) (headerLen : Nat)
    (sampleNames : List String) (fmt : TimeFormat) (s : String)
    (hh : headerLen = sampleNames.length + 1) :
    ∀ (rows : List String) (st : RowState),
      (st.sampleData s).length = sampleNames.count s * st.timePoints.length →
      ((rows.foldl (processRow getTime headerLen sampleNames fmt) st).sampleData s).length
        = sampleNames.count s
          * (rows.foldl (processRow getTime headerLen sampleNames fmt) st).timePoints.length := by
  intro rows
  induction rows with
  | nil =>
      intro st h
      simpa using h
  | cons line rest ih =>
      intro st h
      rw [List.foldl_cons]
      apply ih
      by_cases hc : (rowFields line).length ≠ headerLen
      · simp only [processRow, if_pos hc]
        exact h
      · simp only [processRow, if_neg hc]
        cases hpt : processTimeValue getTime ((rowFields line).headD "") fmt with
        | none => exact h
        | some pt =>
            have hcells : ((rowFields line).drop 1).length = sampleNames.length := by
              rw [List.length_drop]
              omega
            simp only [RowState.mk.injEq]
            rw [pushSamples_length_count sampleNames ((rowFields line).drop 1)
              st.sampleData s hcells]
            simp only [List.length_append, List.length_cons, List.length_nil]
            rw [h, Nat.mul_succ]

/-- What a successful `parseCSV` guarantees: the dataset's fields are the
header tail and the final fold state, the header is one longer than the
sample list, and at least one row survived. -/
theorem parseCSV_ok_elim (getTime : JSDate → JSNum) (csvText : String) (pd : ParsedData)
    (h : parseCSV getTime csvText = Except.ok pd) :
    pd.samples = (headerOf csvText).drop 1 ∧
    (headerOf csvText).length = pd.samples.length + 1 ∧
    pd.timePoints = (finalStateOf getTime csvText pd.timeFormat).timePoints ∧
    pd.sampleData = (finalStateOf getTime csvText pd.timeFormat).sampleData ∧
    pd.timePoints.length ≠ 0 := by
  unfold parseCSV at h
  by_cases h2 : (linesOf csvText).length < 2
  · rw [if_pos h2] at h
    exact absurd h (by simp)
  rw [if_neg h2] at h
  by_cases hns : ((headerOf csvText).drop 1).length = 0
  · rw [if_pos hns] at h
    exact absurd h (by simp)
  rw [if_neg hns] at h
  split at h
  next hdet =>
    exact absurd h (by simp)
  next tf hdet =>
    by_cases htp : (finalStateOf getTime csvText tf).timePoints.length = 0
    · rw [if_pos htp] at h
      exact absurd h (by simp)
    rw [if_neg htp] at h
    injection h with h
    subst h
    refine ⟨rfl, ?_, rfl, rfl, htp⟩
    have hd := List.length_drop 1 (headerOf csvText)
    show (headerOf csvText).length = ((headerOf csvText).drop 1).length + 1
    omega

/-- C7: in a successfully parsed file whose sample names are unique (the
spec's data-model expectation for valid files), every sample's series has
exactly the length of the `timePoints` sequence — one slot, value or
null, per accepted row per sample column. -/
theorem C7_series_aligned (getTime : JSDate → JSNum) (csvText : String) (pd : ParsedData)
    (s : String) (h : parseCSV getTime csvText = Except.ok pd)
    (hnd : pd.samples.Nodup) (hs : s ∈ pd.samples) :
    (pd.sampleData s).length = pd.timePoints.length := by
  obtain ⟨hsam, hlen, htp, hsd, -⟩ := parseCSV_ok_elim getTime csvText pd h
  have hcount : ((headerOf csvText).drop 1).count s = 1 := by
    rw [← hsam]
    exact List.count_eq_one_of_mem hnd hs
  have hinv := foldRows_length_count getTime (headerOf csvText).length
    ((headerOf csvText).drop 1) pd.timeFormat s (by rw [← hsam]; exact hlen)
    ((linesOf csvText).drop 1) initRowState (by simp [initRowState])
  rw [hsd, htp]
  unfold finalStateOf
  rw [hinv, hcount, one_mul]

def csv7 : String := "t,a,b\n1,2,3\n2,4,xyz"

def C7data : ParsedData := okDataOf (parseCSV getTimeStub csv7)

theorem C7_witness :
    (parseCSV getTimeStub csv7 = Except.ok C7data ∧
      C7data.samples.Nodup ∧ "a" ∈ C7data.samples) ∧
    (C7data.sampleData "a").length = C7data.timePoints.length :=
  ⟨⟨rfl, by decide, by decide⟩,
    C7_series_aligned getTimeStub csv7 C7data "a" rfl (by decide) (by decide)⟩

/-- C10: when the header carries the same sample name in two columns,
parsing still succeeds, but both columns push into the single series
stored under that name, so its length is twice the number of accepted
rows — and in particular differs from the `timePoints` length, which is
nonzero in any successful parse. -/
theorem C10_duplicate_name_series (getTime : JSDate → JSNum) (csvText : String)
    (pd : ParsedData) (s : String) (h : parseCSV getTime csvText = Except.ok pd)
    (hc : pd.samples.count s = 2) :
    (pd.sampleData s).length = 2 * pd.timePoints.length ∧
    (pd.sampleData s).length ≠ pd.timePoints.length := by
  obtain ⟨hsam, hlen, htp, hsd, hne⟩ := parseCSV_ok_elim getTime csvText pd h
  have hcount : ((headerOf csvText).drop 1).count s = 2 := by
    rw [← hsam]
    exact hc
  have hinv := foldRows_length_count getTime (headerOf csvText).length
    ((headerOf csvText).drop 1) pd.timeFormat s (by rw [← hsam]; exact hlen)
    ((linesOf csvText).drop 1) initRowState (by simp [initRowState])
  have hmain : (pd.sampleData s).length = 2 * pd.timePoints.length := by
    rw [hsd, htp]
    unfold finalStateOf
    rw [hinv, hcount]
  refine ⟨hmain, ?_⟩
  rw [hmain]
  omega

def csv10 : String := "t,a,a\n1,2,3\n2,4,5"

def C10data : ParsedData := okDataOf (parseCSV getTimeStub csv10)

theorem C10_witness :
    (parseCSV getTimeStub csv10 = Except.ok C10data ∧ C10data.samples.count "a" = 2) ∧
    ((C10data.sampleData "a").length = 2 * C10data.timePoints.length ∧
      (C10data.sampleData "a").length ≠ C10data.timePoints.length) :=
  ⟨⟨rfl, by decide⟩,
    C10_duplicate_name_series getTimeStub csv10 C10data "a" rfl (by decide)⟩

/-- Indexing the row's sample cells: cell `j = i + 1` of the split row is
element `i` of the fields after dropping the time column. -/
theorem getD_drop_one (l : List String) (i : Nat) (d : String) :
    (l.drop 1).getD i d = l.getD (i + 1) d := by
  cases l <;> simp

/-- With pairwise-distinct names the inner sample loop appends exactly the
`i`-th cell's slot to the `i`-th name's series. -/
theorem pushSamples_apply_nodup (names : List String) :
    ∀ (cells : List String) (m : String → List (Option JSNum)) (i : Nat),
      names.Nodup → cells.length = names.length → i < names.length →
      pushSamples m names cells (names.getD i "")
        = m (names.getD i "") ++ [slotOf (cells.getD i "")] := by
  induction names with
  | nil =>
      intro cells m i _ _ hi
      simp at hi
  | cons n ns ih =>
      intro cells m i hnd hlen hi
      cases cells with
      | nil => simp at hlen
      | cons c cs =>
          obtain ⟨hnn, hndns⟩ := List.nodup_cons.mp hnd
          cases i with
          | zero =>
              simp only [List.getD_cons_zero, pushSamples]
              rw [pushSamples_apply_of_not_mem ns cs _ n hnn]
              unfold updateMap
              simp
          | succ j =>
              have hj : j < ns.length := by simpa using hi
              simp only [List.getD_cons_succ, pushSamples]
              rw [ih cs _ j hndns (by simpa using hlen) hj]
              have hne : ns.getD j "" ≠ n := by
                intro he
                apply hnn
                rw [← he, List.getD_eq_getElem ns "" hj]
                exact List.getElem_mem hj
              simp only [updateMap]
              rw [if_neg hne]

/-- C9: in an accepted row (field count matches the header and the time
token converted), a sample cell whose `parseFloat` is NaN contributes
`null` appended to that sample's series, while the row's time point is
appended to `timePoints`: the row is kept, its time point is present, and
— `processRow` being a total function — no exception escapes the parse. -/
theorem C9_nonnumeric_cell_null (getTime : JSDate → JSNum) (headerLen : Nat)
    (sampleNames : List String) (fmt : TimeFormat) (st : RowState) (line : String)
    (pt : TimePoint) (i : Nat)
    (hnd : sampleNames.Nodup)
    (harity : (rowFields line).length = headerLen)
    (hh : headerLen = sampleNames.length + 1)
    (hi : i < sampleNames.length)
    (htime : processTimeValue getTime ((rowFields line).headD "") fmt = some pt)
    (hcell : parseFloatJS ((rowFields line).getD (i + 1) "") = JSNum.nan) :
    (processRow getTime headerLen sampleNames fmt st line).timePoints
      = st.timePoints ++ [pt.numeric] ∧
    (processRow getTime headerLen sampleNames fmt st line).sampleData (sampleNames.getD i "")
      = st.sampleData (sampleNames.getD i "") ++ [none] := by
  have hcells : ((rowFields line).drop 1).length = sampleNames.length := by
    rw [List.length_drop]
    omega
  have hstep : processRow getTime headerLen sampleNames fmt st line
      = RowState.mk (st.timePoints ++ [pt.numeric]) (st.processedTimePoints ++ [pt])
          (pushSamples st.sampleData sampleNames ((rowFields line).drop 1)) := by
    unfold processRow
    rw [if_neg (fun hne => hne harity), htime]
  rw [hstep]
  refine ⟨rfl, ?_⟩
  show pushSamples st.sampleData sampleNames ((rowFields line).drop 1) (sampleNames.getD i "")
    = st.sampleData (sampleNames.getD i "") ++ [none]
  rw [pushSamples_apply_nodup sampleNames ((rowFields line).drop 1) st.sampleData i
    hnd hcells hi]
  rw [getD_drop_one]
  unfold slotOf
  rw [if_pos hcell]

theorem C9_witness :
    (["a", "b"].Nodup ∧
      (rowFields "7,abc,5").length = 3 ∧
      (3 : Nat) = ["a", "b"].length + 1 ∧
      (0 : Nat) < ["a", "b"].length ∧
      processTimeValue getTimeStub ((rowFields "7,abc,5").headD "") TimeFormat.integer
        = some (TimePoint.mk (JSNum.num 7) "7" "7") ∧
      parseFloatJS ((rowFields "7,abc,5").getD 1 "") = JSNum.nan) ∧
    ((processRow getTimeStub 3 ["a", "b"] TimeFormat.integer initRowState "7,abc,5").timePoints
        = initRowState.timePoints ++ [(TimePoint.mk (JSNum.num 7) "7" "7").numeric] ∧
      (processRow getTimeStub 3 ["a", "b"] TimeFormat.integer initRowState "7,abc,5").sampleData
          (["a", "b"].getD 0 "")
        = initRowState.sampleData (["a", "b"].getD 0 "") ++ [none]) :=
  ⟨⟨by decide, by decide, by decide, by decide, by decide, by decide⟩,
    C9_nonnumeric_cell_null getTimeStub 3 ["a", "b"] TimeFormat.integer initRowState "7,abc,5"
      (TimePoint.mk (JSNum.num 7) "7" "7") 0 (by decide) (by decide) (by decide) (by decide)
      (by decide) (by decide)⟩
